import Mathlib

/-!
Verification development for the shillelagh APSW backend core:
the binding converter, adapter registry resolution, the connection
transaction state machine, the cursor execute/retry protocol, fetch
semantics, close semantics, and the safe SQLAlchemy dialect.

The repository sources available are
`src/shillelagh/backends/apsw/dialects/safe.py` and
`tests/backends/apsw/test_db.py`; the module
`shillelagh/backends/apsw/db.py` (Connection, Cursor, connect,
convert_binding) is not present, so its behaviour is modelled from the
design specification, with observable error classes and messages pinned
by the assertions of the test suite.
-/

namespace Shillelagh

/-- Error taxonomy of the database client layer: `InterfaceError`,
`ProgrammingError`, `NotSupportedError`. -/
inductive ErrKind where
  | interface
  | programming
  | notSupported
deriving DecidableEq, Repr

/-- An error raised by the client layer: a kind together with a message. -/
structure DbError where
  kind : ErrKind
  msg : String
deriving DecidableEq, Repr

/-! ## Binding converter value model -/

/-- A calendar date (`datetime.date`). -/
structure DateV where
  year : Nat
  month : Nat
  day : Nat
deriving DecidableEq, Repr

/-- A time of day (`datetime.time`), with an optional timezone given as a
UTC offset in minutes (`none` = naive). -/
structure TimeV where
  hour : Nat
  minute : Nat
  second : Nat
  tz : Option Int
deriving DecidableEq, Repr

/-- A `datetime.datetime`: date plus clock plus optional UTC offset in
minutes (`none` = naive). -/
structure DateTimeV where
  date : DateV
  hour : Nat
  minute : Nat
  second : Nat
  tz : Option Int
deriving DecidableEq, Repr

/-- A native value arriving at the binding call site.  A float is carried
opaquely by its literal (the converter never inspects it); a structured or
mapping value is carried by its canonical string serialization (the
converter only ever serializes it). -/
inductive PyValue where
  | none
  | bool (b : Bool)
  | int (i : Int)
  | float (lit : String)
  | str (s : String)
  | datetime (dt : DateTimeV)
  | date (d : DateV)
  | time (t : TimeV)
  | structured (ser : String)
deriving DecidableEq, Repr

/-- An engine-primitive (SQLite) value. -/
inductive SQLiteValue where
  | null
  | int (i : Int)
  | real (lit : String)
  | text (s : String)
deriving DecidableEq, Repr

/-- Zero-pad a natural number to two digits. -/
def pad2 (n : Nat) : String :=
  if n < 10 then "0" ++ toString n else toString n

/-- Zero-pad a natural number to four digits (ISO year). -/
def pad4 (n : Nat) : String :=
  if n < 10 then "000" ++ toString n
  else if n < 100 then "00" ++ toString n
  else if n < 1000 then "0" ++ toString n
  else toString n

/-- ISO-8601 date: `YYYY-MM-DD`. -/
def isoDate (d : DateV) : String :=
  pad4 d.year ++ "-" ++ pad2 d.month ++ "-" ++ pad2 d.day

/-- ISO-8601 UTC-offset suffix for an offset in minutes: `±HH:MM`. -/
def isoOffset (o : Int) : String :=
  if o < 0 then "-" ++ pad2 ((-o).toNat / 60) ++ ":" ++ pad2 ((-o).toNat % 60)
  else "+" ++ pad2 (o.toNat / 60) ++ ":" ++ pad2 (o.toNat % 60)

/-- ISO-8601 clock: `HH:MM:SS`. -/
def isoClock (h m s : Nat) : String :=
  pad2 h ++ ":" ++ pad2 m ++ ":" ++ pad2 s

/-- ISO-8601 time, with offset appended when timezone-aware. -/
def isoTime (t : TimeV) : String :=
  isoClock t.hour t.minute t.second ++
    (match t.tz with
     | Option.none => ""
     | Option.some o => isoOffset o)

/-- ISO-8601 datetime, with offset appended when timezone-aware. -/
def isoDateTime (dt : DateTimeV) : String :=
  isoDate dt.date ++ "T" ++ isoClock dt.hour dt.minute dt.second ++
    (match dt.tz with
     | Option.none => ""
     | Option.some o => isoOffset o)

/-- Modelled from the spec: `convert_binding` of
`shillelagh/backends/apsw/db.py` (missing from the sources), following
§4.1 of the design: `null → null`; boolean → integer 0/1; datetime →
ISO-8601 string (offset included only when timezone-aware); date →
`YYYY-MM-DD`; time → `HH:MM:SS` with offset appended when timezone-aware;
any other structured/mapping value → its canonical string serialization;
integers, floats and strings pass through unchanged. -/
def convert_binding : PyValue → SQLiteValue
  | PyValue.none => SQLiteValue.null
  | PyValue.bool b => SQLiteValue.int (if b then 1 else 0)
  | PyValue.datetime dt => SQLiteValue.text (isoDateTime dt)
  | PyValue.date d => SQLiteValue.text (isoDate d)
  | PyValue.time t => SQLiteValue.text (isoTime t)
  | PyValue.structured ser => SQLiteValue.text ser
  | PyValue.int i => SQLiteValue.int i
  | PyValue.float lit => SQLiteValue.real lit
  | PyValue.str s => SQLiteValue.text s

/-! ## Adapter registry -/

/-- An adapter implementation: its class name (e.g. `FakeAdapter`), its
declared safety flag, and its capability to be instantiated as a virtual
table for a given table identifier. -/
structure Adapter where
  name : String
  safe : Bool
  supports : String → Bool

/-- A discoverable plugin entry point: the registered name and the result
of loading its implementation (`none` models a load that raises
`ImportError`/`ModuleNotFoundError` for an unmet optional dependency). -/
structure EntryPoint where
  name : String
  load : Option Adapter

/-- The successfully loaded descriptors, as (entry-point name, adapter)
pairs in registry order; entry points whose load fails are skipped. -/
def loadedPairs (eps : List EntryPoint) : List (String × Adapter) :=
  eps.filterMap (fun ep => ep.load.map (fun a => (ep.name, a)))

/-- Names of the successfully loaded descriptors, in registry order. -/
def loadedNames (eps : List EntryPoint) : List String :=
  (loadedPairs eps).map Prod.fst

/-- First name occurring more than once in a list, if any. -/
def firstRepeated : List String → Option String
  | [] => Option.none
  | x :: xs => if x ∈ xs then Option.some x else firstRepeated xs

/-- Candidate selection of §4.2: if `requested` is absent the candidate
set is every loaded descriptor, except that in safe mode an absent
request means an empty request (explicit opt-in); then restrict to the
requested names, and in safe mode keep only safe implementations. -/
def selectAdapters (pairs : List (String × Adapter)) (requested : Option (List String))
    (safe : Bool) : List (String × Adapter) :=
  let requested₂ := if safe && requested.isNone then Option.some [] else requested
  let candidates :=
    match requested₂ with
    | Option.none => pairs
    | Option.some names => pairs.filter (fun p => names.contains p.1)
  if safe then candidates.filter (fun p => p.2.safe) else candidates

/-- Modelled from the spec: adapter resolution of `connect` in
`shillelagh/backends/apsw/db.py` (missing from the sources), following
§4.2 of the design: load all discoverable entry points, skipping those
with unmet dependencies; fail with an `InterfaceError` naming a repeated
name among the successfully loaded descriptors (the message is pinned by
`test_conect_safe`); otherwise select candidates by the requested names
and the safety policy. -/
def resolvePairs (eps : List EntryPoint) (requested : Option (List String))
    (safe : Bool) : Except DbError (List (String × Adapter)) :=
  match firstRepeated (loadedNames eps) with
  | Option.some n =>
    Except.error ⟨ErrKind.interface, "Repeated adapter names found: " ++ n⟩
  | Option.none => Except.ok (selectAdapters (loadedPairs eps) requested safe)

/-- ASCII lowercase of a character. -/
def lowerChar (c : Char) : Char :=
  if c.isUpper then Char.ofNat (c.toNat + 32) else c

/-- ASCII lowercase of a string (`str.lower()`). -/
def lowerString (s : String) : String :=
  String.mk (s.data.map lowerChar)

/-- The key under which an adapter's configuration is delivered to the
Connection: the implementation's own (lowercased class) name. -/
def adapterKey (a : Adapter) : String :=
  lowerString a.name

/-- Rekey the caller's adapter configuration, given under entry-point
names, to the loaded implementations' own names. -/
def rekeyKwargs {κ : Type} (ps : List (String × Adapter))
    (kwargs : List (String × κ)) : List (String × κ) :=
  ps.filterMap (fun p => (kwargs.lookup p.1).map (fun v => (adapterKey p.2, v)))

/-- The arguments `connect` hands to the `Connection` constructor. -/
structure ConnectArgs (κ : Type) where
  path : String
  adapters : List Adapter
  adapter_kwargs : List (String × κ)
  isolation_level : Option String

/-- Modelled from the spec: `connect` of
`shillelagh/backends/apsw/db.py` (missing from the sources): resolve the
adapters, rekey the adapter configuration to the implementations' own
names, and hand everything to the `Connection` constructor. -/
def connect {κ : Type} (eps : List EntryPoint) (path : String)
    (requested : Option (List String)) (kwargs : List (String × κ))
    (safe : Bool) (iso : Option String) : Except DbError (ConnectArgs κ) :=
  (resolvePairs eps requested safe).map
    (fun ps => ⟨path, ps.map Prod.snd, rekeyKwargs ps kwargs, iso⟩)

/-! ## Connection transaction state machine -/

/-- A command received by the underlying engine. -/
inductive EngineCmd where
  | beginTx (level : String)
  | commitTx
  | rollbackTx
  | stmt (sql : String)
deriving DecidableEq, Repr

/-- Transaction state of a connection: `idle` or `in-transaction`. -/
structure ConnState where
  in_transaction : Bool
deriving DecidableEq, Repr

/-- A connection-level operation driven by the caller. -/
inductive TxOp where
  | execute (sql : String)
  | commit
  | rollback
deriving DecidableEq, Repr

/-- Modelled from the spec: the transaction state machine of
`Connection`/`Cursor` in `shillelagh/backends/apsw/db.py` (missing from
the sources), following §4.3 of the design: an execute while idle first
issues `BEGIN <isolation-level>` (none when no isolation level is
configured); `commit()`/`rollback()` issue `COMMIT`/`ROLLBACK` only while
in a transaction and send nothing while idle.  Returns the successor
state and the commands sent to the engine. -/
def stepTx (iso : Option String) (s : ConnState) : TxOp → ConnState × List EngineCmd
  | TxOp.execute sql =>
    if s.in_transaction then (s, [EngineCmd.stmt sql])
    else
      match iso with
      | Option.some lvl => (⟨true⟩, [EngineCmd.beginTx lvl, EngineCmd.stmt sql])
      | Option.none => (s, [EngineCmd.stmt sql])
  | TxOp.commit =>
    if s.in_transaction then (⟨false⟩, [EngineCmd.commitTx]) else (s, [])
  | TxOp.rollback =>
    if s.in_transaction then (⟨false⟩, [EngineCmd.rollbackTx]) else (s, [])

/-- Run a sequence of connection operations from a given state,
collecting the full engine trace. -/
def runTx (iso : Option String) (s : ConnState) :
    List TxOp → ConnState × List EngineCmd
  | [] => (s, [])
  | op :: ops =>
    let r := stepTx iso s op
    let rest := runTx iso r.1 ops
    (rest.1, r.2 ++ rest.2)

/-- Engine-side transaction framing check: starting from flag `b`
(`true` = inside a transaction), scan a trace; a `BEGIN` is legal only
while idle, a `COMMIT`/`ROLLBACK` only inside a transaction.  Returns
the final flag when the trace is well framed, `none` otherwise. -/
def framedRun (b : Bool) : List EngineCmd → Option Bool
  | [] => Option.some b
  | EngineCmd.beginTx _ :: r => if b then Option.none else framedRun true r
  | EngineCmd.commitTx :: r => if b then framedRun false r else Option.none
  | EngineCmd.rollbackTx :: r => if b then framedRun false r else Option.none
  | EngineCmd.stmt _ :: r => framedRun b r

/-! ## Cursor execute/retry protocol -/

/-- Outcome the underlying engine reports for one statement. -/
inductive ExecResult where
  | ok
  | noSuchTable (ident : String)
  | otherError (msg : String)
deriving DecidableEq, Repr

/-- The `CREATE VIRTUAL TABLE` statement materializing an adapter-backed
table. -/
def createStmt (ident adapterName : String) : String :=
  "CREATE VIRTUAL TABLE \"" ++ ident ++ "\" USING " ++ adapterName ++ "()"

/-- Modelled from the spec: the execute/retry protocol of
`Cursor.execute` in `shillelagh/backends/apsw/db.py` (missing from the
sources), following §4.4 of the design.  The engine is a collaborator
answering a statement given the set of tables created so far.  On a
`no such table` condition with a resolved adapter able to instantiate the
identifier, a `CREATE VIRTUAL TABLE` is issued and the statement retried
exactly once; a second same-kind failure, or no matching adapter, is the
programming error `Unsupported table: <identifier>` (message pinned by
`test_unsupported_table`); other engine errors surface as programming
errors with the engine's message.  Returns the outcome and the statement
trace sent to the engine. -/
def cursorExecute (adapters : List Adapter)
    (engine : List String → String → ExecResult)
    (created : List String) (sql : String) :
    Except DbError Unit × List String :=
  match engine created sql with
  | ExecResult.ok => (Except.ok (), [sql])
  | ExecResult.otherError m => (Except.error ⟨ErrKind.programming, m⟩, [sql])
  | ExecResult.noSuchTable ident =>
    match adapters.find? (fun a => a.supports ident) with
    | Option.none =>
      (Except.error ⟨ErrKind.programming, "Unsupported table: " ++ ident⟩, [sql])
    | Option.some a =>
      match engine (ident :: created) sql with
      | ExecResult.ok => (Except.ok (), [sql, createStmt ident a.name, sql])
      | ExecResult.noSuchTable ident₂ =>
        (Except.error ⟨ErrKind.programming, "Unsupported table: " ++ ident₂⟩,
          [sql, createStmt ident a.name, sql])
      | ExecResult.otherError m =>
        (Except.error ⟨ErrKind.programming, m⟩,
          [sql, createStmt ident a.name, sql])

/-- The engine of `test_transaction`: `dummy://` is missing until the
virtual table is created, after which every statement succeeds. -/
def dummyEngine (created : List String) (_sql : String) : ExecResult :=
  if created.contains "dummy://" then ExecResult.ok
  else ExecResult.noSuchTable "dummy://"

/-- The fake `dummy` adapter of the test suite: implementation class
`FakeAdapter`, safe, able to instantiate any identifier. -/
def fakeAdapter : Adapter :=
  ⟨"FakeAdapter", true, fun _ => true⟩

/-! ## Cursor fetch state -/

/-- Result-iteration state of a cursor: the pending result rows
(`none` before any execute) and the reported rowcount. -/
structure CursorFetchState where
  results : Option (List (List SQLiteValue))
  rowcount : Int
deriving DecidableEq, Repr

/-- A cursor fresh from `Connection.cursor()`: no description, rowcount
unknown. -/
def freshCursor : CursorFetchState :=
  ⟨Option.none, -1⟩

/-- Modelled from the spec: a successful `SELECT` execution in
`shillelagh/backends/apsw/db.py` (missing from the sources) stores the
result rows and reports their count as `rowcount`. -/
def executeSelect (rows : List (List SQLiteValue)) (_c : CursorFetchState) :
    CursorFetchState :=
  ⟨Option.some rows, Int.ofNat rows.length⟩

/-- Modelled from the spec: `Cursor.fetchone` in
`shillelagh/backends/apsw/db.py` (missing from the sources): a fetch
before any execute is the programming error pinned by
`test_check_result`; past exhaustion it returns an explicit empty result
(`None`) rather than erroring. -/
def fetchone (c : CursorFetchState) :
    Except DbError (Option (List SQLiteValue) × CursorFetchState) :=
  match c.results with
  | Option.none =>
    Except.error ⟨ErrKind.programming, "Called before ``execute``"⟩
  | Option.some [] => Except.ok (Option.none, c)
  | Option.some (r :: rest) =>
    Except.ok (Option.some r, ⟨Option.some rest, c.rowcount⟩)

/-- The two-row dataset of the fake `dummy` adapter:
`[(20.0, "Alice", 0), (23.0, "Bob", 3)]`. -/
def dummyRows : List (List SQLiteValue) :=
  [[SQLiteValue.real "20.0", SQLiteValue.text "Alice", SQLiteValue.int 0],
   [SQLiteValue.real "23.0", SQLiteValue.text "Bob", SQLiteValue.int 3]]

/-! ## Connection close -/

/-- A cursor as tracked by its owning connection: an identity and its
closed flag. -/
structure MCursor where
  id : Nat
  closed : Bool
deriving DecidableEq, Repr

/-- Modelled from the spec: `Cursor.close` in
`shillelagh/backends/apsw/db.py` (missing from the sources): closing an
already-closed cursor raises the error pinned by `test_check_closed`
(a `ProgrammingError`, message `Cursor already closed`). -/
def closeCursor (c : MCursor) : Except DbError MCursor :=
  if c.closed then Except.error ⟨ErrKind.programming, "Cursor already closed"⟩
  else Except.ok ⟨c.id, true⟩

/-- A connection as owner of its cursors. -/
structure MConnection where
  closed : Bool
  cursors : List MCursor
deriving DecidableEq, Repr

/-- The connection after a successful close: itself closed, every owned
cursor closed. -/
def closedConn (conn : MConnection) : MConnection :=
  ⟨true, conn.cursors.map (fun c => ⟨c.id, true⟩)⟩

/-- The cursors whose `close()` a successful `Connection.close()`
invokes: exactly the still-open ones, by identity. -/
def closeCalls (conn : MConnection) : List Nat :=
  (conn.cursors.filter (fun c => !c.closed)).map MCursor.id

/-- Modelled from the spec: `Connection.close` in
`shillelagh/backends/apsw/db.py` (missing from the sources): closing an
already-closed connection raises the error pinned by `test_check_closed`
(a `ProgrammingError`, message `Connection already closed`); otherwise
every still-open owned cursor is closed (already-closed cursors are
skipped, per `test_close_connection`).  Returns the closed connection and
the identities of the cursors whose `close()` was invoked. -/
def closeConnection (conn : MConnection) :
    Except DbError (MConnection × List Nat) :=
  if conn.closed then
    Except.error ⟨ErrKind.programming, "Connection already closed"⟩
  else Except.ok (closedConn conn, closeCalls conn)

/-! ## The safe SQLAlchemy dialect (`dialects/safe.py`) -/

/-- A SQLAlchemy connection URL, by components. -/
structure URL where
  drivername : String
  username : Option String
  password : Option String
  host : Option String
  port : Option Nat
  database : Option String
  query : List (String × String)
deriving DecidableEq, Repr

/-- `APSWSafeDialect` of
`src/shillelagh/backends/apsw/dialects/safe.py`: the requested adapter
names, the adapter configuration (values of type `κ`), the `_safe` flag,
and the inherited isolation level. -/
structure APSWSafeDialect (κ : Type) where
  adapters : Option (List String)
  adapter_kwargs : List (String × κ)
  _safe : Bool
  isolation_level : Option String

/-- `APSWSafeDialect.__init__`: stores the adapters, defaults a missing
`adapter_kwargs` to the empty mapping, and sets `_safe = True`. -/
def APSWSafeDialect.init {κ : Type} (adapters : Option (List String))
    (adapter_kwargs : Option (List (String × κ)))
    (isolation_level : Option String) : APSWSafeDialect κ :=
  ⟨adapters, adapter_kwargs.getD [], true, isolation_level⟩

/-- `APSWSafeDialect.create_connect_args`: ignores the URL entirely and
returns `((":memory:", adapters, adapter_kwargs, True, isolation_level),
{})`. -/
def APSWSafeDialect.create_connect_args {κ : Type} (d : APSWSafeDialect κ)
    (_url : URL) :
    (String × Option (List String) × List (String × κ) × Bool × Option String) ×
      List (String × κ) :=
  ((":memory:", d.adapters, d.adapter_kwargs, true, d.isolation_level), [])

end Shillelagh

namespace Shillelagh

/-- Claim C5: the binding converter is a pure total function mapping null to
null, True to 1 and False to 0, timezone-aware datetimes to their
ISO-8601 string with UTC offset, naive datetimes to their ISO-8601
string with no offset, dates to `YYYY-MM-DD`, times to `HH:MM:SS` with
offset appended when aware, structured values to their canonical string
serialization (`{}` to `"{}"`), and passing integers, floats and strings
through unchanged; checked both clause by clause and on the spec's
round-trip examples. -/
theorem convert_binding_spec :
    (convert_binding PyValue.none = SQLiteValue.null) ∧
    (∀ b : Bool, convert_binding (PyValue.bool b) =
      SQLiteValue.int (if b then 1 else 0)) ∧
    (∀ d h m s o, convert_binding (PyValue.datetime ⟨d, h, m, s, Option.some o⟩) =
      SQLiteValue.text (isoDate d ++ "T" ++ isoClock h m s ++ isoOffset o)) ∧
    (∀ d h m s, convert_binding (PyValue.datetime ⟨d, h, m, s, Option.none⟩) =
      SQLiteValue.text (isoDate d ++ "T" ++ isoClock h m s)) ∧
    (∀ d : DateV, convert_binding (PyValue.date d) = SQLiteValue.text (isoDate d)) ∧
    (∀ h m s, convert_binding (PyValue.time ⟨h, m, s, Option.none⟩) =
      SQLiteValue.text (isoClock h m s)) ∧
    (∀ h m s o, convert_binding (PyValue.time ⟨h, m, s, Option.some o⟩) =
      SQLiteValue.text (isoClock h m s ++ isoOffset o)) ∧
    (∀ ser, convert_binding (PyValue.structured ser) = SQLiteValue.text ser) ∧
    (∀ i, convert_binding (PyValue.int i) = SQLiteValue.int i) ∧
    (∀ lit, convert_binding (PyValue.float lit) = SQLiteValue.real lit) ∧
    (∀ s, convert_binding (PyValue.str s) = SQLiteValue.text s) ∧
    (convert_binding (PyValue.bool true) = SQLiteValue.int 1) ∧
    (convert_binding (PyValue.bool false) = SQLiteValue.int 0) ∧
    (convert_binding (PyValue.date ⟨2021, 1, 1⟩) = SQLiteValue.text "2021-01-01") ∧
    (convert_binding (PyValue.datetime ⟨⟨2021, 1, 1⟩, 0, 0, 0, Option.some 0⟩) =
      SQLiteValue.text "2021-01-01T00:00:00+00:00") ∧
    (convert_binding (PyValue.datetime ⟨⟨2021, 1, 1⟩, 0, 0, 0, Option.none⟩) =
      SQLiteValue.text "2021-01-01T00:00:00") ∧
    (convert_binding (PyValue.time ⟨12, 0, 0, Option.none⟩) =
      SQLiteValue.text "12:00:00") ∧
    (convert_binding (PyValue.time ⟨12, 0, 0, Option.some 0⟩) =
      SQLiteValue.text "12:00:00+00:00") ∧
    (convert_binding (PyValue.structured "\x7b\x7d") = SQLiteValue.text "\x7b\x7d") := by
  refine ⟨rfl, ?_, ?_, ?_, ?_, ?_, ?_, ?_, ?_, ?_, ?_, rfl, rfl, ?_, ?_, ?_, ?_, ?_, rfl⟩
  · intro b; rfl
  · intro d h m s o; rfl
  · intro d h m s
    simp [convert_binding, isoDateTime]
  · intro d; rfl
  · intro h m s
    simp [convert_binding, isoTime]
  · intro h m s o; rfl
  · intro ser; rfl
  · intro i; rfl
  · intro lit; rfl
  · intro s; rfl
  · rfl
  · rfl
  · rfl
  · rfl
  · rfl

/-! ## Registry lemmas -/

theorem firstRepeated_eq_none_of_nodup {l : List String} (h : l.Nodup) :
    firstRepeated l = Option.none := by
  induction l with
  | nil => rfl
  | cons x xs ih =>
    rw [List.nodup_cons] at h
    simp [firstRepeated, h.1, ih h.2]

theorem exists_firstRepeated_of_not_nodup {l : List String} (h : ¬ l.Nodup) :
    ∃ n, firstRepeated l = Option.some n ∧ 2 ≤ l.count n := by
  induction l with
  | nil => exact absurd List.nodup_nil h
  | cons x xs ih =>
    by_cases hx : x ∈ xs
    · refine ⟨x, by simp [firstRepeated, hx], ?_⟩
      have h1 : 0 < xs.count x := List.count_pos_iff.mpr hx
      rw [List.count_cons_self]
      omega
    · rw [List.nodup_cons] at h
      push_neg at h
      obtain ⟨n, hn, hc⟩ := ih (h hx)
      refine ⟨n, by simp [firstRepeated, hx, hn], ?_⟩
      by_cases hxn : x = n
      · subst hxn
        exact absurd (List.count_pos_iff.mp (by omega)) hx
      · simp [List.count_cons, hxn]
        omega

/-- Claim C4: if the plugin registry contains two successfully loaded
descriptors with the same name, resolution always fails with an interface
error naming the offending (actually repeated) name, regardless of the
requested adapter list and the safety setting. -/
theorem resolve_duplicate_fails (eps : List EntryPoint)
    (requested : Option (List String)) (safe : Bool)
    (h : ¬ (loadedNames eps).Nodup) :
    ∃ n, resolvePairs eps requested safe =
        Except.error ⟨ErrKind.interface, "Repeated adapter names found: " ++ n⟩ ∧
      2 ≤ (loadedNames eps).count n := by
  obtain ⟨n, hn, hc⟩ := exists_firstRepeated_of_not_nodup h
  refine ⟨n, ?_, hc⟩
  unfold resolvePairs
  rw [hn]

/-- Claim C4 witness: the registry of `test_conect_safe` with two loaded
descriptors named `one` makes resolution fail with the interface error
`Repeated adapter names found: one`. -/
theorem resolve_duplicate_fails_witness :
    ∃ n, resolvePairs
        [⟨"one", Option.some ⟨"FakeAdapter1", true, fun _ => true⟩⟩,
         ⟨"one", Option.some ⟨"FakeAdapter2", false, fun _ => true⟩⟩]
        (Option.some ["one"]) true =
        Except.error ⟨ErrKind.interface, "Repeated adapter names found: " ++ n⟩ ∧
      2 ≤ (loadedNames
        [⟨"one", Option.some ⟨"FakeAdapter1", true, fun _ => true⟩⟩,
         ⟨"one", Option.some ⟨"FakeAdapter2", false, fun _ => true⟩⟩]).count n :=
  resolve_duplicate_fails _ _ _ (by decide)

/-- Claim C3: in safe mode, resolution only ever yields adapters that
declare themselves safe and whose entry-point names appear in the
requested list (the resolved set is a subset of the requested names for
every safety setting), and safe mode with no requested names resolves to
the empty set, not to all safe adapters. -/
theorem resolve_safe_mode (eps : List EntryPoint) (names : List String)
    (safe : Bool) (ps : List (String × Adapter))
    (h : resolvePairs eps (Option.some names) safe = Except.ok ps) :
    (∀ p ∈ ps, p.1 ∈ names) ∧
    (safe = true → ∀ p ∈ ps, p.2.safe = true) ∧
    (∀ eps₂ : List EntryPoint, (loadedNames eps₂).Nodup →
      resolvePairs eps₂ Option.none true = Except.ok []) := by
  have hps : ps = selectAdapters (loadedPairs eps) (Option.some names) safe := by
    unfold resolvePairs at h
    cases hfr : firstRepeated (loadedNames eps) with
    | none => rw [hfr] at h; exact (Except.ok.injEq _ _).mp h.symm
    | some n => rw [hfr] at h; exact absurd h (by simp)
  subst hps
  refine ⟨?_, ?_, ?_⟩
  · intro p hp
    rcases safe with _ | _ <;> simp [selectAdapters, List.mem_filter] at hp <;> tauto
  · intro hs p hp
    subst hs
    simp [selectAdapters, List.mem_filter] at hp
    tauto
  · intro eps₂ hnd
    unfold resolvePairs
    rw [firstRepeated_eq_none_of_nodup hnd]
    simp [selectAdapters]

/-- Claim C3 witness: with the registry of `test_conect_safe` (safe
adapter `one`, unsafe `two` and `three`), requesting all three in safe
mode resolves to adapters whose names are among the requested and which
are all safe, and safe mode with no request resolves to the empty set. -/
theorem resolve_safe_mode_witness :
    (∀ p ∈ [(("one" : String), (⟨"FakeAdapter1", true, fun _ => true⟩ : Adapter))],
      p.1 ∈ ["one", "two", "three"]) ∧
    (true = true → ∀ p ∈ [(("one" : String), (⟨"FakeAdapter1", true, fun _ => true⟩ : Adapter))],
      p.2.safe = true) ∧
    (∀ eps₂ : List EntryPoint, (loadedNames eps₂).Nodup →
      resolvePairs eps₂ Option.none true = Except.ok []) :=
  resolve_safe_mode
    [⟨"one", Option.some ⟨"FakeAdapter1", true, fun _ => true⟩⟩,
     ⟨"two", Option.some ⟨"FakeAdapter2", false, fun _ => true⟩⟩,
     ⟨"three", Option.some ⟨"FakeAdapter3", false, fun _ => true⟩⟩]
    ["one", "two", "three"] true _ rfl

theorem loadedPairs_append (eps₁ eps₂ : List EntryPoint) :
    loadedPairs (eps₁ ++ eps₂) = loadedPairs eps₁ ++ loadedPairs eps₂ := by
  simp [loadedPairs, List.filterMap_append]

/-- Claim C7: entry points whose load raises a missing-dependency error
are silently excluded — dropping such an entry point anywhere in the
registry leaves resolution unchanged for every request and safety
setting — and resolution (with no requested names, safety off, and no
repeated names) succeeds with exactly the successfully loaded
adapters. -/
theorem resolve_skips_unmet_dependencies (eps₁ eps₂ : List EntryPoint)
    (ep : EntryPoint) (requested : Option (List String)) (safe : Bool)
    (hep : ep.load = Option.none) :
    resolvePairs (eps₁ ++ ep :: eps₂) requested safe =
      resolvePairs (eps₁ ++ eps₂) requested safe ∧
    (∀ eps : List EntryPoint, (loadedNames eps).Nodup →
      resolvePairs eps Option.none false = Except.ok (loadedPairs eps)) := by
  constructor
  · have hlp : loadedPairs (eps₁ ++ ep :: eps₂) = loadedPairs (eps₁ ++ eps₂) := by
      rw [loadedPairs_append, loadedPairs_append]
      simp [loadedPairs, List.filterMap_cons, hep]
    unfold resolvePairs loadedNames
    rw [hlp]
  · intro eps hnd
    unfold resolvePairs
    rw [firstRepeated_eq_none_of_nodup hnd]
    simp [selectAdapters]

/-- Claim C7 witness: the registry of `test_connect_unmet_dependency` —
`dummy` loads, `trouble` and `more_trouble` raise import errors — is
resolved the same as a registry without the failing entry points, and the
resolved set is exactly the loaded `FakeAdapter`. -/
theorem resolve_skips_unmet_dependencies_witness :
    resolvePairs
        ([⟨"dummy", Option.some ⟨"FakeAdapter", true, fun _ => true⟩⟩] ++
          ⟨"trouble", Option.none⟩ ::
            [(⟨"more_trouble", Option.none⟩ : EntryPoint)])
        Option.none false =
      resolvePairs
        ([⟨"dummy", Option.some ⟨"FakeAdapter", true, fun _ => true⟩⟩] ++
          [(⟨"more_trouble", Option.none⟩ : EntryPoint)])
        Option.none false ∧
    (∀ eps : List EntryPoint, (loadedNames eps).Nodup →
      resolvePairs eps Option.none false = Except.ok (loadedPairs eps)) :=
  resolve_skips_unmet_dependencies
    [⟨"dummy", Option.some ⟨"FakeAdapter", true, fun _ => true⟩⟩]
    [⟨"more_trouble", Option.none⟩] ⟨"trouble", Option.none⟩
    Option.none false rfl

/-- Claim C10: `connect` rekeys the adapter configuration before handing
it to the `Connection`: it delivers, for each resolved (entry-point name,
adapter) pair whose entry-point name carries configuration, that
configuration under the implementation's own key, and every key delivered
to the `Connection` is an implementation's own key (never the entry-point
name, unless the two coincide). -/
theorem connect_rekeys_adapter_kwargs {κ : Type} (eps : List EntryPoint)
    (path : String) (requested : Option (List String))
    (kwargs : List (String × κ)) (safe : Bool) (iso : Option String)
    (ps : List (String × Adapter))
    (hres : resolvePairs eps requested safe = Except.ok ps) :
    connect eps path requested kwargs safe iso =
      Except.ok ⟨path, ps.map Prod.snd, rekeyKwargs ps kwargs, iso⟩ ∧
    (∀ n a v, (n, a) ∈ ps → kwargs.lookup n = Option.some v →
      (adapterKey a, v) ∈ rekeyKwargs ps kwargs) ∧
    (∀ k ∈ (rekeyKwargs ps kwargs).map Prod.fst,
      ∃ p ∈ ps, k = adapterKey p.2) := by
  refine ⟨?_, ?_, ?_⟩
  · unfold connect
    rw [hres]
    rfl
  · intro n a v hmem hlook
    apply List.mem_filterMap.mpr
    exact ⟨(n, a), hmem, by simp [hlook]⟩
  · intro k hk
    obtain ⟨pair, hpair, hfst⟩ := List.mem_map.mp hk
    obtain ⟨p, hp, hf⟩ := List.mem_filterMap.mp hpair
    obtain ⟨v, hv, heq⟩ := Option.map_eq_some'.mp hf
    exact ⟨p, hp, by rw [← hfst, ← heq]⟩

/-- Claim C10 witness: as in `test_connect_adapter_kwargs`,
configuration supplied under the entry-point name `dummy` is delivered to
the `Connection` keyed by the implementation's own name `fakeadapter`. -/
theorem connect_rekeys_adapter_kwargs_witness :
    connect [⟨"dummy", Option.some ⟨"FakeAdapter", true, fun _ => true⟩⟩]
        ":memory:" (Option.some ["dummy"]) [("dummy", "bar")] false
        (Option.some "IMMEDIATE") =
      Except.ok ⟨":memory:", [⟨"FakeAdapter", true, fun _ => true⟩],
        [("fakeadapter", "bar")], Option.some "IMMEDIATE"⟩ := by
  have h := connect_rekeys_adapter_kwargs
    [⟨"dummy", Option.some ⟨"FakeAdapter", true, fun _ => true⟩⟩]
    ":memory:" (Option.some ["dummy"]) [("dummy", "bar")] false
    (Option.some "IMMEDIATE")
    [("dummy", ⟨"FakeAdapter", true, fun _ => true⟩)] rfl
  exact h.1.trans (by rfl)

/-! ## Transaction framing lemmas -/

theorem framedRun_append (t₁ t₂ : List EngineCmd) (b : Bool) :
    framedRun b (t₁ ++ t₂) =
      (framedRun b t₁).bind (fun b₂ => framedRun b₂ t₂) := by
  induction t₁ generalizing b with
  | nil => rfl
  | cons c r ih =>
    cases c with
    | beginTx lvl =>
      cases b with
      | false => simpa [framedRun] using ih true
      | true => simp [framedRun]
    | commitTx =>
      cases b with
      | false => simp [framedRun]
      | true => simpa [framedRun] using ih false
    | rollbackTx =>
      cases b with
      | false => simp [framedRun]
      | true => simpa [framedRun] using ih false
    | stmt sql => simpa [framedRun] using ih b

theorem framedRun_stepTx (iso : Option String) (s : ConnState) (op : TxOp) :
    framedRun s.in_transaction (stepTx iso s op).2 =
      Option.some (stepTx iso s op).1.in_transaction := by
  cases op with
  | execute sql =>
    cases hs : s.in_transaction with
    | true => simp [stepTx, hs, framedRun]
    | false =>
      cases iso with
      | none => simp [stepTx, hs, framedRun]
      | some lvl => simp [stepTx, hs, framedRun]
  | commit =>
    cases hs : s.in_transaction with
    | true => simp [stepTx, hs, framedRun]
    | false => simp [stepTx, hs, framedRun]
  | rollback =>
    cases hs : s.in_transaction with
    | true => simp [stepTx, hs, framedRun]
    | false => simp [stepTx, hs, framedRun]

theorem framedRun_runTx (iso : Option String) (ops : List TxOp) (s : ConnState) :
    framedRun s.in_transaction (runTx iso s ops).2 =
      Option.some (runTx iso s ops).1.in_transaction := by
  induction ops generalizing s with
  | nil => rfl
  | cons op ops ih =>
    show framedRun s.in_transaction
        ((stepTx iso s op).2 ++ (runTx iso (stepTx iso s op).1 ops).2) = _
    rw [framedRun_append, framedRun_stepTx]
    exact ih (stepTx iso s op).1

/-- Claim C2: the transaction state machine keeps the engine framing
invariant — for every operation sequence from the idle initial state the
engine trace never holds two `BEGIN`s without an intervening
`COMMIT`/`ROLLBACK` and never a `COMMIT`/`ROLLBACK` while idle (the
framing scan succeeds) — and moreover `commit()`/`rollback()` while idle
send nothing to the engine, an execute while idle with a configured
isolation level issues exactly one `BEGIN <level>` before the statement,
and an execute inside a transaction issues no `BEGIN`. -/
theorem transaction_state_machine (iso : Option String) :
    (∀ ops : List TxOp,
      (framedRun false (runTx iso ⟨false⟩ ops).2).isSome = true) ∧
    (∀ s : ConnState, s.in_transaction = false →
      stepTx iso s TxOp.commit = (s, []) ∧
      stepTx iso s TxOp.rollback = (s, [])) ∧
    (∀ lvl sql, iso = Option.some lvl →
      stepTx iso ⟨false⟩ (TxOp.execute sql) =
        (⟨true⟩, [EngineCmd.beginTx lvl, EngineCmd.stmt sql])) ∧
    (∀ (s : ConnState) (sql : String), s.in_transaction = true →
      stepTx iso s (TxOp.execute sql) = (s, [EngineCmd.stmt sql])) := by
  refine ⟨?_, ?_, ?_, ?_⟩
  · intro ops
    have h := framedRun_runTx iso ops ⟨false⟩
    rw [show (⟨false⟩ : ConnState).in_transaction = false from rfl] at h
    rw [h]
    rfl
  · intro s hs
    exact ⟨by simp [stepTx, hs], by simp [stepTx, hs]⟩
  · intro lvl sql hiso
    subst hiso
    rfl
  · intro s sql hs
    simp [stepTx, hs]

/-- Claim C2 witness: the operation sequence of `test_transaction` —
commit while idle, execute, rollback, execute, commit, rollback while
idle — produces a well-framed engine trace, and the individual clauses
hold at the concrete states of that test. -/
theorem transaction_state_machine_witness :
    (framedRun false (runTx (Option.some "IMMEDIATE") ⟨false⟩
      [TxOp.commit, TxOp.execute "SELECT 1", TxOp.rollback,
       TxOp.execute "SELECT 2", TxOp.commit, TxOp.rollback]).2).isSome = true ∧
    stepTx (Option.some "IMMEDIATE") ⟨false⟩ TxOp.commit = (⟨false⟩, []) ∧
    stepTx (Option.some "IMMEDIATE") ⟨false⟩ (TxOp.execute "SELECT 2") =
      (⟨true⟩, [EngineCmd.beginTx "IMMEDIATE", EngineCmd.stmt "SELECT 2"]) ∧
    stepTx (Option.some "IMMEDIATE") ⟨true⟩ (TxOp.execute "SELECT 3") =
      (⟨true⟩, [EngineCmd.stmt "SELECT 3"]) := by
  have h := transaction_state_machine (Option.some "IMMEDIATE")
  exact ⟨h.1 _, (h.2.1 ⟨false⟩ rfl).1, h.2.2.1 "IMMEDIATE" "SELECT 2" rfl,
    h.2.2.2 ⟨true⟩ "SELECT 3" rfl⟩

/-- Claim C1: when the engine reports `no such table: <identifier>` and
the first resolved adapter able to instantiate the identifier exists,
`execute` issues exactly one `CREATE VIRTUAL TABLE "<identifier>" USING
<adapter>()` and retries the original statement exactly once — the full
engine trace is `[sql, create, sql]` — succeeding if the retry succeeds
and failing with the programming error `Unsupported table: <identifier>`
if the retry fails the same way, with no further retry; when no resolved
adapter matches, `execute` fails with that programming error and neither
creates a table nor retries. -/
theorem cursor_execute_retry (adapters : List Adapter)
    (engine : List String → String → ExecResult) (created : List String)
    (sql ident : String)
    (h : engine created sql = ExecResult.noSuchTable ident) :
    (∀ a, adapters.find? (fun x => x.supports ident) = Option.some a →
      (cursorExecute adapters engine created sql).2 =
        [sql, createStmt ident a.name, sql] ∧
      (engine (ident :: created) sql = ExecResult.ok →
        (cursorExecute adapters engine created sql).1 = Except.ok ()) ∧
      (engine (ident :: created) sql = ExecResult.noSuchTable ident →
        (cursorExecute adapters engine created sql).1 =
          Except.error ⟨ErrKind.programming, "Unsupported table: " ++ ident⟩)) ∧
    (adapters.find? (fun x => x.supports ident) = Option.none →
      cursorExecute adapters engine created sql =
        (Except.error ⟨ErrKind.programming, "Unsupported table: " ++ ident⟩,
          [sql])) := by
  constructor
  · intro a hfind
    refine ⟨?_, ?_, ?_⟩
    · simp only [cursorExecute, h, hfind]
      cases engine (ident :: created) sql <;> rfl
    · intro hretry
      simp only [cursorExecute, h, hfind, hretry]
    · intro hretry
      simp only [cursorExecute, h, hfind, hretry]
  · intro hfind
    simp only [cursorExecute, h, hfind]

/-- Claim C1 witness: on the scenario of `test_transaction`, the first
reference to `dummy://` triggers exactly the trace `[SELECT, CREATE
VIRTUAL TABLE "dummy://" USING FakeAdapter(), SELECT]` and succeeds,
while with no resolved adapter (`test_unsupported_table`) the same
statement fails with `Unsupported table: dummy://` and no retry. -/
theorem cursor_execute_retry_witness :
    (cursorExecute [fakeAdapter] dummyEngine [] "SELECT 1 FROM \"dummy://\"").2 =
      ["SELECT 1 FROM \"dummy://\"",
       "CREATE VIRTUAL TABLE \"dummy://\" USING FakeAdapter()",
       "SELECT 1 FROM \"dummy://\""] ∧
    (cursorExecute [fakeAdapter] dummyEngine [] "SELECT 1 FROM \"dummy://\"").1 =
      Except.ok () ∧
    cursorExecute [] dummyEngine [] "SELECT * FROM \"dummy://\"" =
      (Except.error ⟨ErrKind.programming, "Unsupported table: dummy://"⟩,
        ["SELECT * FROM \"dummy://\""]) := by
  have h₁ := cursor_execute_retry [fakeAdapter] dummyEngine []
    "SELECT 1 FROM \"dummy://\"" "dummy://" rfl
  have h₂ := cursor_execute_retry [] dummyEngine []
    "SELECT * FROM \"dummy://\"" "dummy://" rfl
  exact ⟨((h₁.1 fakeAdapter rfl).1).trans (by rfl),
    (h₁.1 fakeAdapter rfl).2.1 rfl, h₂.2 rfl⟩

/-- Claim C6: on the dummy adapter's fixed two-row dataset, executing the
select sets rowcount to 2, two `fetchone` calls yield the two rows in
dataset order, a third `fetchone` yields the empty (`None`) result
rather than an error — as does any further fetch on an exhausted cursor —
and rowcount stays 2 through the whole fetch sequence. -/
theorem dummy_fetch_scenario :
    executeSelect dummyRows freshCursor = ⟨Option.some dummyRows, 2⟩ ∧
    fetchone ⟨Option.some dummyRows, 2⟩ =
      Except.ok (Option.some
        [SQLiteValue.real "20.0", SQLiteValue.text "Alice", SQLiteValue.int 0],
        ⟨Option.some
          [[SQLiteValue.real "23.0", SQLiteValue.text "Bob", SQLiteValue.int 3]],
          2⟩) ∧
    fetchone ⟨Option.some
        [[SQLiteValue.real "23.0", SQLiteValue.text "Bob", SQLiteValue.int 3]],
        2⟩ =
      Except.ok (Option.some
        [SQLiteValue.real "23.0", SQLiteValue.text "Bob", SQLiteValue.int 3],
        ⟨Option.some [], 2⟩) ∧
    fetchone ⟨Option.some [], 2⟩ = Except.ok (Option.none, ⟨Option.some [], 2⟩) ∧
    (∀ rc : Int, fetchone ⟨Option.some [], rc⟩ =
      Except.ok (Option.none, ⟨Option.some [], rc⟩)) :=
  ⟨rfl, rfl, rfl, rfl, fun _ => rfl⟩

/-- Claim C8 counterexample: closing an already-closed cursor (and
connection) raises a programming error — `ProgrammingError("Cursor
already closed")`, as asserted by `test_check_closed` — not an interface
error as the claim states. -/
theorem close_error_kind_counterexample :
    closeCursor ⟨0, true⟩ =
      Except.error ⟨ErrKind.programming, "Cursor already closed"⟩ ∧
    closeConnection ⟨true, []⟩ =
      Except.error ⟨ErrKind.programming, "Connection already closed"⟩ ∧
    ErrKind.programming ≠ ErrKind.interface :=
  ⟨rfl, rfl, by decide⟩

/-- Claim C8 (amended): `Connection.close()` closes every still-open
owned cursor exactly once, skipping cursors already closed, and leaves
every owned cursor closed; closing an already-closed cursor or
connection raises a *programming* error (`Cursor already closed` /
`Connection already closed`). -/
theorem close_connection_correct (conn : MConnection)
    (hc : conn.closed = false)
    (hid : (conn.cursors.map MCursor.id).Nodup) :
    closeConnection conn = Except.ok (closedConn conn, closeCalls conn) ∧
    (closedConn conn).closed = true ∧
    (∀ c ∈ conn.cursors, c.closed = false → (closeCalls conn).count c.id = 1) ∧
    (∀ c ∈ conn.cursors, c.closed = true → c.id ∉ closeCalls conn) ∧
    (∀ c ∈ (closedConn conn).cursors, c.closed = true) ∧
    closeConnection (closedConn conn) =
      Except.error ⟨ErrKind.programming, "Connection already closed"⟩ ∧
    (∀ c : MCursor, c.closed = true →
      closeCursor c =
        Except.error ⟨ErrKind.programming, "Cursor already closed"⟩) := by
  have hsub : (closeCalls conn).Sublist (conn.cursors.map MCursor.id) :=
    List.Sublist.map MCursor.id (List.filter_sublist conn.cursors)
  have hnd : (closeCalls conn).Nodup := hid.sublist hsub
  refine ⟨by simp [closeConnection, hc], rfl, ?_, ?_, ?_, rfl, ?_⟩
  · intro c hmem hopen
    apply List.count_eq_one_of_mem hnd
    apply List.mem_map_of_mem
    exact List.mem_filter.mpr ⟨hmem, by simp [hopen]⟩
  · intro c hmem hclosed hin
    obtain ⟨c₂, hc₂, hcid⟩ := List.mem_map.mp hin
    have hc₂mem := (List.mem_filter.mp hc₂).1
    have hc₂open : c₂.closed = false := by
      have := (List.mem_filter.mp hc₂).2
      simpa using this
    have : c = c₂ :=
      List.inj_on_of_nodup_map hid hmem hc₂mem hcid.symm
    rw [this, hc₂open] at hclosed
    exact absurd hclosed (by decide)
  · intro c hmem
    obtain ⟨c₂, _, hcc⟩ := List.mem_map.mp hmem
    rw [← hcc]
  · intro c hcl
    simp [closeCursor, hcl]

/-- Claim C8 witness: closing the connection of `test_close_connection`
— owning one already-closed cursor and one open cursor — invokes close
only on the open cursor, exactly once. -/
theorem close_connection_correct_witness :
    closeConnection ⟨false, [⟨1, true⟩, ⟨2, false⟩]⟩ =
      Except.ok (⟨true, [⟨1, true⟩, ⟨2, true⟩]⟩, [2]) ∧
    ([2] : List Nat).count 2 = 1 ∧ (1 : Nat) ∉ ([2] : List Nat) := by
  have h := close_connection_correct ⟨false, [⟨1, true⟩, ⟨2, false⟩]⟩ rfl
    (by decide)
  exact ⟨h.1, by decide, by decide⟩

/-- Claim C9: `APSWSafeDialect.create_connect_args` returns the identical
value for every URL — the result never depends on any URL component, the
data source is always the in-memory locator, the safety flag in the
connect arguments is always `True`, and the keyword dictionary is always
empty; moreover `__init__` always sets the dialect's `_safe` flag. -/
theorem create_connect_args_ignores_url {κ : Type} (d : APSWSafeDialect κ)
    (u₁ u₂ : URL) :
    d.create_connect_args u₁ = d.create_connect_args u₂ ∧
    d.create_connect_args u₁ =
      ((":memory:", d.adapters, d.adapter_kwargs, true, d.isolation_level),
        []) ∧
    (d.create_connect_args u₁).1.1 = ":memory:" ∧
    (d.create_connect_args u₁).1.2.2.2.1 = true ∧
    (d.create_connect_args u₁).2 = [] ∧
    (∀ (adapters : Option (List String))
        (kwargs : Option (List (String × κ))) (iso : Option String),
      (APSWSafeDialect.init adapters kwargs iso)._safe = true) :=
  ⟨rfl, rfl, rfl, rfl, rfl, fun _ _ _ => rfl⟩

end Shillelagh
